import Mathlib

/-!
Verification of the weather_code_lab repository core against its
natural-language specification.

The Python sources are shallowly embedded:
* strings are `List Char` / `String`, Python floats are `ℚ`,
* a raising Python function returns `Except ε` (or `Option`),
* pandas DataFrames are `List` of record structures, and
* `concurrent.futures.ProcessPoolExecutor.map` is an order-preserving map
  whose result does not depend on `max_workers` (only scheduling does);
  an exception raised in a worker re-raises when results are collected.
-/

set_option maxRecDepth 4096

namespace WeatherLab

/-! ## Coordinate decoding (src/helpers.py, convert_to_decimal) -/

/-- Python regex `\s` restricted to the ASCII whitespace characters it
accepts: space, tab, newline, carriage return, vertical tab, form feed. -/
def pySpace (c : Char) : Bool :=
  c = ' ' || c = '\t' || c = '\n' || c = '\r' || c = '\x0b' || c = '\x0c'

/-- Decimal value of a run of ASCII digit characters, embedding Python's
`int(...)` on the digit groups captured by the regex. -/
def digitsToNat (ds : List Char) : Nat :=
  ds.foldl (fun n c => 10 * n + (c.toNat - '0'.toNat)) 0

/-- Python `str.strip()`: drop whitespace from both ends. -/
def pyStrip (cs : List Char) : List Char :=
  ((cs.dropWhile pySpace).reverse.dropWhile pySpace).reverse

/-- Python `str.split(sep)` for a one-character separator: split on every
occurrence, keeping empty pieces (`"".split(sep) == [""]`). -/
def pySplitChar (sep : Char) : List Char → List (List Char)
  | [] => [[]]
  | c :: cs =>
    if c = sep then [] :: pySplitChar sep cs
    else
      match pySplitChar sep cs with
      | [] => [[c]]
      | g :: gs => (c :: g) :: gs

/-- Python `str.lower()` on the ASCII identifiers this program handles. -/
def pyLower (cs : List Char) : List Char :=
  cs.map Char.toLower

/-- `re.match(r"(\d+)\s+(\d+)([NSEW])", s)`: anchored prefix match.  For this
regex, greedy maximal-munch matching is exact (each `+` group is followed by a
character class disjoint from its own), so the match is modelled by `span`
runs: a nonempty digit run, a nonempty whitespace run, a nonempty digit run,
then one of N, S, E, W; anything after the hemisphere letter is ignored. -/
def matchCoord (cs : List Char) : Option (Nat × Nat × Char) :=
  let p1 := cs.span Char.isDigit
  if p1.1 = [] then none else
  let p2 := p1.2.span pySpace
  if p2.1 = [] then none else
  let p3 := p2.2.span Char.isDigit
  if p3.1 = [] then none else
  match p3.2 with
  | [] => none
  | h :: _ =>
    if h = 'N' || h = 'S' || h = 'E' || h = 'W' then
      some (digitsToNat p1.1, digitsToNat p3.1, h)
    else none

/-- `helpers.convert_to_decimal`: strip the token, prefix-match the
degrees/minutes/hemisphere regex, return `degrees + minutes/60` negated for
S or W; raise `ValueError` (modelled `Except.error ()`) on no match. -/
def convert_to_decimal (coord : List Char) : Except Unit ℚ :=
  match matchCoord (pyStrip coord) with
  | none => Except.error ()
  | some (d, m, dir) =>
    let dec : ℚ := (d : ℚ) + (m : ℚ) / 60
    Except.ok (if dir = 'S' ∨ dir = 'W' then -dec else dec)

/-! ## Observations and deduplication -/

/-- One decoded per-station report row, as produced by the (external)
METAR-grammar collaborator plus the `report_time` column the pipeline
assigns.  Fields carry the columns the claims mention. -/
structure Obs where
  station : String
  latitude : ℚ
  longitude : ℚ
  air_temperature : ℚ
  raw : String
  report_time : Option Nat
deriving DecidableEq

/-- Worker for `pandas.DataFrame.drop_duplicates()` (no subset, keep the
first occurrence of each fully-equal row): `seen` holds rows already kept. -/
def dropDupAux {α : Type} [DecidableEq α] : List α → List α → List α
  | _, [] => []
  | seen, x :: xs =>
    if x ∈ seen then dropDupAux seen xs else x :: dropDupAux (x :: seen) xs

/-- `pandas.DataFrame.drop_duplicates()`: keep the first occurrence of each
row, dropping rows equal on every column. -/
def dropDuplicates {α : Type} [DecidableEq α] (l : List α) : List α :=
  dropDupAux [] l

/-! ## Region filter (the two `.between` filters of `_process_metar_data`) -/

/-- `pandas.Series.between(lo, hi)` with the default inclusive bounds. -/
def pdBetween (lo hi x : ℚ) : Bool :=
  decide (lo ≤ x ∧ x ≤ hi)

/-- The two filter lines of `MetarReport._process_metar_data`:
`df[df["latitude"].between(bbox[2], bbox[3])]` then
`df[df["longitude"].between(bbox[0], bbox[1])]`. -/
def regionFilter (bbox : List ℚ) (df : List Obs) : List Obs :=
  let df1 := df.filter (fun o => pdBetween (bbox.getD 2 0) (bbox.getD 3 0) o.latitude)
  df1.filter (fun o => pdBetween (bbox.getD 0 0) (bbox.getD 1 0) o.longitude)

/-! ## Region resolution (bounding-box cache + geocoding collaborator) -/

/-- Parse one comma-separated field the way Python `float(...)` does on the
plain decimal literals this program handles: optional surrounding
whitespace, optional sign, digits with an optional fractional part
(exponent / `inf` / `nan` spellings are not exercised by this program). -/
def parseUnsigned (cs : List Char) : Option ℚ :=
  let p := cs.span Char.isDigit
  match p.2 with
  | [] => if p.1 = [] then none else some ((digitsToNat p.1 : ℚ))
  | '.' :: fr =>
    if fr.all Char.isDigit && (decide (p.1 ≠ []) || decide (fr ≠ [])) then
      some ((digitsToNat p.1 : ℚ) + (digitsToNat fr : ℚ) / (10 ^ fr.length))
    else none
  | _ => none

/-- Python `float(s)` on this program's inputs. -/
def pyFloat (cs : List Char) : Option ℚ :=
  match pyStrip cs with
  | '-' :: rest => (parseUnsigned rest).map (fun q => -q)
  | '+' :: rest => parseUnsigned rest
  | cs' => parseUnsigned cs'

/-- `[float(coord) for coord in bbox]`: first failing field raises. -/
def parseFields : List (List Char) → Option (List ℚ)
  | [] => some []
  | s :: rest =>
    match pyFloat s, parseFields rest with
    | some v, some vs => some (v :: vs)
    | _, _ => none

/-- `response...content.split(",")` then the float comprehension of
`MetarReport._get_bounding_box`: no count check, no ordering check. -/
def parseBBoxReply (reply : List Char) : Except Unit (List ℚ) :=
  match parseFields (pySplitChar ',' reply) with
  | some l => Except.ok l
  | none => Except.error ()

/-- `MetarReport._load_bounding_box`: look the case-folded identifier up in
the persisted JSON mapping (modelled as an association list). -/
def loadBoundingBox (cache : List (List Char × List ℚ)) (location : List Char) :
    Option (List ℚ) :=
  List.lookup (pyLower location) cache

/-- `MetarReport._write_bounding_box`: `bbox_json[location.lower()] = bbox`
then dump the whole mapping — other keys are preserved; modelled as a
lookup-equivalent prepend of the updated binding. -/
def writeBoundingBoxCache (cache : List (List Char × List ℚ)) (location : List Char)
    (bbox : List ℚ) : List (List Char × List ℚ) :=
  (pyLower location, bbox) :: cache

/-- Outcome of one `_get_bounding_box` call: the bounding box (or the raised
exception), the persisted store afterwards, and whether the external
geocoding collaborator was invoked. -/
structure ResolveOutcome where
  result : Except Unit (List ℚ)
  cache : List (List Char × List ℚ)
  invoked : Bool

/-- `MetarReport._get_bounding_box` with the collaborator's reply supplied as
`reply`: on a cache hit return the cached list without invoking the
collaborator; on a miss invoke it, parse the reply, and (when the
`write_bounding_box` flag is set) persist under the case-folded identifier.
A parse exception propagates before anything is written. -/
def getBoundingBox (writeFlag : Bool) (reply : List Char)
    (cache : List (List Char × List ℚ)) (location : List Char) : ResolveOutcome :=
  match loadBoundingBox cache location with
  | some bbox =>
    ⟨Except.ok bbox,
     if writeFlag then writeBoundingBoxCache cache location bbox else cache,
     false⟩
  | none =>
    match parseBBoxReply reply with
    | Except.error e => ⟨Except.error e, cache, true⟩
    | Except.ok bbox =>
      ⟨Except.ok bbox,
       if writeFlag then writeBoundingBoxCache cache location bbox else cache,
       true⟩

/-! ## The two report pipelines

`src/test.py` (`MetarData`): a process pool maps `_proces_data` over the
blocks with NO exception handling — a block that raises aborts the batch
when results are collected.  `src/tutorials/metar/latest_ai_assist.py`
(`MetarReport._process_metar_data`): a sequential loop with a per-block
`try/except` that skips failing blocks.  The external collaborators
(`parse_metar_file` and `datetime.strptime`) are passed in as functions. -/

/-- `test.py._proces_data`: `text.split("\n")[1]` (IndexError when the block
has fewer than two lines) fed to the METAR-grammar collaborator. -/
def proces_data (parseMetar : List Char → Except Unit (List Obs))
    (text : List Char) : Except Unit (List Obs) :=
  match (pySplitChar '\n' text)[1]? with
  | none => Except.error ()
  | some line => parseMetar line

/-- `list(executor.map(f, xs))`: results in input order; an exception raised
by any element re-raises at collection time, discarding the batch. -/
def executorMap (f : List Char → Except Unit (List Obs)) :
    List (List Char) → Except Unit (List (List Obs))
  | [] => Except.ok []
  | b :: bs =>
    match f b, executorMap f bs with
    | Except.error e, _ => Except.error e
    | Except.ok _, Except.error e => Except.error e
    | Except.ok y, Except.ok ys => Except.ok (y :: ys)

/-- `MetarData.get_data`: pool-map `_proces_data` over the blocks, then
`pd.concat(...).drop_duplicates()`.  `max_workers` only sizes the pool; the
collected result does not depend on it. -/
def get_data (max_workers : Nat) (parseMetar : List Char → Except Unit (List Obs))
    (blocks : List (List Char)) : Except Unit (List Obs) :=
  match executorMap (proces_data parseMetar) blocks with
  | Except.error e => Except.error e
  | Except.ok dfs => Except.ok (dropDuplicates dfs.flatten)

/-- `df_metar["report_time"] = date`: stamp every row of a parsed block. -/
def setReportTime (d : Nat) (l : List Obs) : List Obs :=
  l.map (fun o => { o with report_time := some d })

/-- The body of the per-blob `try` block of
`MetarReport._process_metar_data`: split lines, `strptime` the first line
(the date collaborator `parseDate`), decode the second line via the
METAR-grammar collaborator, stamp `report_time`.  Any step may raise. -/
def processBlob (parseDate : List Char → Except Unit Nat)
    (parseMetar : List Char → Except Unit (List Obs)) (blob : List Char) :
    Except Unit (List Obs) :=
  let lines := pySplitChar '\n' blob
  match lines[0]? with
  | none => Except.error ()
  | some l0 =>
    match parseDate l0 with
    | Except.error e => Except.error e
    | Except.ok d =>
      match lines[1]? with
      | none => Except.error ()
      | some l1 =>
        match parseMetar l1 with
        | Except.error e => Except.error e
        | Except.ok obs => Except.ok (setReportTime d obs)

/-- The accumulation loop of `MetarReport._process_metar_data`: concat each
successfully decoded blob; `except ... continue` skips a raising blob. -/
def processBlobs (parseDate : List Char → Except Unit Nat)
    (parseMetar : List Char → Except Unit (List Obs)) (blobs : List (List Char)) :
    List Obs :=
  blobs.foldl
    (fun df blob =>
      match processBlob parseDate parseMetar blob with
      | Except.ok obs => df ++ obs
      | Except.error _ => df)
    []

/-- `MetarReport._process_metar_data` end to end: per-blob loop, the two
inclusive `between` filters against the bounding box, `drop_duplicates()`. -/
def process_metar_data (parseDate : List Char → Except Unit Nat)
    (parseMetar : List Char → Except Unit (List Obs)) (bbox : List ℚ)
    (blobs : List (List Char)) : List Obs :=
  dropDuplicates (regionFilter bbox (processBlobs parseDate parseMetar blobs))

/-! ## Station catalog filters (src/helpers.py, station_data_us) -/

/-- A dynamically-typed Python value handed to a `station_data_us` filter
parameter (the shapes this program distinguishes). -/
inductive PyVal where
  | bool (b : Bool)
  | int (n : Int)
  | str (s : List Char)
  | list (l : List String)
deriving DecidableEq

/-- A raised Python exception: `ValueError(msg)`, or the `AttributeError`
raised by calling `.lower()` on a value that lacks it. -/
inductive PyErr where
  | valueError (msg : String)
  | attributeError
deriving DecidableEq

/-- One decoded station row, with the columns the filters touch. -/
structure Station where
  state : String
  metar : Bool
  nexrad : Bool
  upper_air_rawinsonde : Bool
  office_type_wfo : Bool
  office_type_rfc : Bool
  office_type_ncep : Bool
deriving DecidableEq

/-- The `metar` filter of `station_data_us`. -/
def filterMetar (df : List Station) : Option PyVal → Except PyErr (List Station)
  | none => Except.ok df
  | some (PyVal.bool b) => Except.ok (df.filter (fun s => s.metar = b))
  | some _ =>
    Except.error (PyErr.valueError "metar parameter must be a boolean value (True/False)")

/-- The `nexrad` filter of `station_data_us`. -/
def filterNexrad (df : List Station) : Option PyVal → Except PyErr (List Station)
  | none => Except.ok df
  | some (PyVal.bool b) => Except.ok (df.filter (fun s => s.nexrad = b))
  | some _ =>
    Except.error (PyErr.valueError "nexrad parameter must be a boolean value (True/False)")

/-- The `rawinsonde` filter of `station_data_us`. -/
def filterRawinsonde (df : List Station) : Option PyVal → Except PyErr (List Station)
  | none => Except.ok df
  | some (PyVal.bool b) => Except.ok (df.filter (fun s => s.upper_air_rawinsonde = b))
  | some _ =>
    Except.error (PyErr.valueError "rawinsonde parameter must be a boolean value (True/False)")

/-- The `states` filter of `station_data_us` (`df["state"].isin(states)`). -/
def filterStates (df : List Station) : Option PyVal → Except PyErr (List Station)
  | none => Except.ok df
  | some (PyVal.list l) => Except.ok (df.filter (fun s => l.contains s.state))
  | some _ =>
    Except.error (PyErr.valueError "states parameter must be a list of state abbreviations (e.g., ['PA', 'NY'])")

/-- The `office_type` filter of `station_data_us`: `office_type.lower()`
raises `AttributeError` on a non-string; a string outside the three tokens
raises the `ValueError` of the final `else`. -/
def filterOfficeType (df : List Station) : Option PyVal → Except PyErr (List Station)
  | none => Except.ok df
  | some (PyVal.str s) =>
    if pyLower s = "wfo".data then Except.ok (df.filter (fun st => st.office_type_wfo = true))
    else if pyLower s = "rfc".data then Except.ok (df.filter (fun st => st.office_type_rfc = true))
    else if pyLower s = "ncep".data then Except.ok (df.filter (fun st => st.office_type_ncep = true))
    else Except.error (PyErr.valueError "office_type parameter must be one of: 'wfo', 'rfc', 'ncep'")
  | some _ => Except.error PyErr.attributeError

/-- The filter/validation tail of `helpers.station_data_us`, applied to the
already-decoded catalog `df`, in the source's check order:
`metar`, `nexrad`, `rawinsonde`, `states`, `office_type`. -/
def station_data_us (df : List Station)
    (metar nexrad rawinsonde office_type states : Option PyVal) :
    Except PyErr (List Station) :=
  match filterMetar df metar with
  | Except.error e => Except.error e
  | Except.ok df1 =>
    match filterNexrad df1 nexrad with
    | Except.error e => Except.error e
    | Except.ok df2 =>
      match filterRawinsonde df2 rawinsonde with
      | Except.error e => Except.error e
      | Except.ok df3 =>
        match filterStates df3 states with
        | Except.error e => Except.error e
        | Except.ok df4 => filterOfficeType df4 office_type

/-! ## Render plan (MetarPlot.plot_observations) -/

/-- The `PlotObs` configuration assembled by `MetarPlot.plot_observations`
(identical in `src/test.py` and `src/tutorials/metar/latest_ai_assist.py`). -/
structure PlotObsConfig where
  fields : List String
  locations : List String
  colors : List String
  reduce_points : ℚ
  vector_field : List String
deriving DecidableEq

/-- The literal configuration the source sets: note `reduce_points = 0` and
a fixed field list containing no station-id entry. -/
def plotObservationsConfig : PlotObsConfig :=
  { fields := ["air_temperature", "dew_point_temperature", "altimeter", "cloud_coverage"]
    locations := ["NW", "SW", "NE", "C"]
    colors := ["tab:red", "tab:green", "black", "black"]
    reduce_points := 0
    vector_field := ["eastward_wind", "northward_wind"] }

/-- The render plan `plot_observations` produces as a function of the
resolved bounding region: the source consults the region only for
`panel.area`, never for the observation plan, so the plan is constant. -/
def plot_observations_plan (bounding_box : List ℚ) : PlotObsConfig :=
  plotObservationsConfig

/-- Modelled from the spec: the §4.7 DensityPlanner tier table's
point-reduction fraction (first tier whose upper bound is ≥ area; the final
tier unbounded).  No such table exists anywhere in the source; this
definition follows the spec's words, for comparison with
`plot_observations_plan`. -/
def specTierReduction (area : ℚ) : ℚ :=
  if area ≤ 20000 then 0
  else if area ≤ 50000 then 20 / 100
  else if area ≤ 200000 then 50 / 100
  else if area ≤ 500000 then 60 / 100
  else if area ≤ 900000 then 70 / 100
  else if area ≤ 1500000 then 80 / 100
  else 1

/-- Modelled from the spec: the §4.7 tier table's "drop station-id labels"
column (true from the 200,000–500,000 tier up). -/
def specTierDropLabels (area : ℚ) : Bool :=
  decide (200000 < area)

/-! ## Concrete demo inputs used by counterexamples and witnesses -/

/-- A concrete stand-in METAR-grammar collaborator: decodes any line into a
single observation carrying the line. -/
def demoParse : List Char → Except Unit (List Obs) :=
  fun s =>
    Except.ok
      [{ station := ⟨s⟩, latitude := 0, longitude := 0, air_temperature := 0,
         raw := ⟨s⟩, report_time := none }]

/-- A concrete stand-in `strptime` collaborator: accepts the fixed header
line of the demo blocks and rejects everything else. -/
def demoParseDate : List Char → Except Unit Nat :=
  fun s => if s = "2024/01/01 00:00".data then Except.ok 0 else Except.error ()

/-- 50 report blocks of which exactly the last 2 are malformed (a single
line, so `text.split("\n")[1]` raises IndexError). -/
def blocks50 : List (List Char) :=
  ((List.range 48).map (fun i => ("2024/01/01 00:00\nMETAR" ++ toString i).data)) ++
    ["bad one".data, "bad two".data]

/-- A parameter value the boolean filters of `station_data_us` accept
without raising: absent, or a Python bool. -/
def boolOk (v : Option PyVal) : Prop :=
  v = none ∨ ∃ b, v = some (PyVal.bool b)

/-- A parameter value the `states` filter of `station_data_us` accepts
without raising: absent, or a Python list. -/
def listOk (v : Option PyVal) : Prop :=
  v = none ∨ ∃ l, v = some (PyVal.list l)

/-- A concrete observation used by witnesses. -/
def demoObsA : Obs :=
  { station := "KEWR", latitude := 41, longitude := -74, air_temperature := 20,
    raw := "KEWR 010000Z", report_time := some 0 }

/-- A second, distinct concrete observation used by witnesses. -/
def demoObsB : Obs :=
  { station := "KACY", latitude := 39, longitude := -75, air_temperature := 21,
    raw := "KACY 010000Z", report_time := some 0 }

/-- Decidable equality for raised-or-returned outcomes. -/
instance {ε α : Type} [DecidableEq ε] [DecidableEq α] : DecidableEq (Except ε α) :=
  fun x y =>
    match x, y with
    | Except.ok a, Except.ok b =>
      if h : a = b then Decidable.isTrue (by rw [h])
      else Decidable.isFalse (fun hc => h (by cases hc; rfl))
    | Except.error a, Except.error b =>
      if h : a = b then Decidable.isTrue (by rw [h])
      else Decidable.isFalse (fun hc => h (by cases hc; rfl))
    | Except.ok _, Except.error _ => Decidable.isFalse (fun hc => Except.noConfusion hc)
    | Except.error _, Except.ok _ => Decidable.isFalse (fun hc => Except.noConfusion hc)

/-! # Helper lemmas -/

theorem pySpace_iff {c : Char} :
    pySpace c = true ↔
      c = ' ' ∨ c = '\t' ∨ c = '\n' ∨ c = '\r' ∨ c = '\x0b' ∨ c = '\x0c' := by
  simp [pySpace, or_assoc]

theorem isDigit_not_pySpace {c : Char} (h : c.isDigit = true) : pySpace c = false := by
  cases hc : pySpace c
  · rfl
  · rcases pySpace_iff.mp hc with rfl | rfl | rfl | rfl | rfl | rfl <;> exact absurd h (by decide)

theorem pySpace_not_isDigit {c : Char} (h : pySpace c = true) : c.isDigit = false := by
  rcases pySpace_iff.mp h with rfl | rfl | rfl | rfl | rfl | rfl <;> decide

theorem hem_not_isDigit {c : Char} (h : c = 'N' ∨ c = 'S' ∨ c = 'E' ∨ c = 'W') :
    c.isDigit = false := by
  rcases h with rfl | rfl | rfl | rfl <;> decide

theorem hem_not_pySpace {c : Char} (h : c = 'N' ∨ c = 'S' ∨ c = 'E' ∨ c = 'W') :
    pySpace c = false := by
  rcases h with rfl | rfl | rfl | rfl <;> decide

theorem takeWhile_append_cons {p : Char → Bool} (l₁ : List Char) (c : Char)
    (t : List Char) (h₁ : ∀ x ∈ l₁, p x = true) (hc : p c = false) :
    (l₁ ++ c :: t).takeWhile p = l₁ := by
  induction l₁ with
  | nil => simp [List.takeWhile_cons, hc]
  | cons a l ih =>
    have ha : p a = true := h₁ a (List.mem_cons_self a l)
    simp only [List.cons_append, List.takeWhile_cons, ha, if_true]
    rw [ih (fun x hx => h₁ x (List.mem_cons_of_mem a hx))]

theorem dropWhile_append_cons {p : Char → Bool} (l₁ : List Char) (c : Char)
    (t : List Char) (h₁ : ∀ x ∈ l₁, p x = true) (hc : p c = false) :
    (l₁ ++ c :: t).dropWhile p = c :: t := by
  induction l₁ with
  | nil => simp [List.dropWhile_cons, hc]
  | cons a l ih =>
    have ha : p a = true := h₁ a (List.mem_cons_self a l)
    simp only [List.cons_append, List.dropWhile_cons, ha, if_true]
    exact ih (fun x hx => h₁ x (List.mem_cons_of_mem a hx))

theorem dropWhile_append_cons_free {p : Char → Bool} (A : List Char) (c : Char)
    (t : List Char) (hc : p c = false) :
    (A ++ c :: t).dropWhile p = A.dropWhile p ++ c :: t := by
  induction A with
  | nil => simp [List.dropWhile_cons, hc]
  | cons a A ih =>
    by_cases ha : p a
    · simp [List.dropWhile_cons, ha, ih]
    · simp [List.dropWhile_cons, ha]

theorem mem_dropDupAux {α : Type} [DecidableEq α] (l : List α) (seen : List α)
    (a : α) : a ∈ dropDupAux seen l ↔ a ∈ l ∧ a ∉ seen := by
  induction l generalizing seen with
  | nil => simp [dropDupAux]
  | cons x xs ih =>
    by_cases hx : x ∈ seen
    · rw [dropDupAux, if_pos hx, ih]
      simp only [List.mem_cons]
      constructor
      · exact fun ⟨h1, h2⟩ => ⟨Or.inr h1, h2⟩
      · rintro ⟨rfl | h1, h2⟩
        · exact absurd hx h2
        · exact ⟨h1, h2⟩
    · rw [dropDupAux, if_neg hx]
      simp only [List.mem_cons, ih]
      by_cases hax : a = x
      · subst hax
        simp [hx]
      · simp only [hax, false_or]

theorem nodup_dropDupAux {α : Type} [DecidableEq α] (l : List α) (seen : List α) :
    (dropDupAux seen l).Nodup := by
  induction l generalizing seen with
  | nil => simp [dropDupAux]
  | cons x xs ih =>
    by_cases hx : x ∈ seen
    · rw [dropDupAux, if_pos hx]
      exact ih seen
    · rw [dropDupAux, if_neg hx]
      refine List.nodup_cons.mpr ⟨?_, ih (x :: seen)⟩
      intro hmem
      exact ((mem_dropDupAux xs (x :: seen) x).mp hmem).2 (List.mem_cons_self x seen)

theorem dropDupAux_eq_self {α : Type} [DecidableEq α] (l : List α) (seen : List α)
    (hn : l.Nodup) (hd : ∀ a ∈ l, a ∉ seen) : dropDupAux seen l = l := by
  induction l generalizing seen with
  | nil => simp [dropDupAux]
  | cons x xs ih =>
    have hx : x ∉ seen := hd x (List.mem_cons_self x xs)
    rw [dropDupAux, if_neg hx]
    rw [ih (x :: seen) (List.nodup_cons.mp hn).2]
    intro a ha hs
    rcases List.mem_cons.mp hs with rfl | hs'
    · exact (List.nodup_cons.mp hn).1 ha
    · exact hd a (List.mem_cons_of_mem x ha) hs'

theorem mem_dropDuplicates {α : Type} [DecidableEq α] (l : List α) (a : α) :
    a ∈ dropDuplicates l ↔ a ∈ l := by
  rw [dropDuplicates, mem_dropDupAux]
  simp

theorem nodup_dropDuplicates {α : Type} [DecidableEq α] (l : List α) :
    (dropDuplicates l).Nodup :=
  nodup_dropDupAux l []

theorem dropDuplicates_idem {α : Type} [DecidableEq α] (l : List α) :
    dropDuplicates (dropDuplicates l) = dropDuplicates l :=
  dropDupAux_eq_self (dropDuplicates l) [] (nodup_dropDuplicates l) (by simp)

theorem matchCoord_prefix_aux (ds ws ms : List Char) (h : Char) (rest : List Char)
    (hds : ds ≠ []) (hds2 : ∀ c ∈ ds, c.isDigit = true)
    (hws : ws ≠ []) (hws2 : ∀ c ∈ ws, pySpace c = true)
    (hms : ms ≠ []) (hms2 : ∀ c ∈ ms, c.isDigit = true)
    (hh : h = 'N' ∨ h = 'S' ∨ h = 'E' ∨ h = 'W') :
    matchCoord (ds ++ ws ++ ms ++ h :: rest) =
      some (digitsToNat ds, digitsToNat ms, h) := by
  obtain ⟨w, ws', rfl⟩ := List.exists_cons_of_ne_nil hws
  obtain ⟨m, ms', rfl⟩ := List.exists_cons_of_ne_nil hms
  have hw : pySpace w = true := hws2 w (List.mem_cons_self w ws')
  have hm : Char.isDigit m = true := hms2 m (List.mem_cons_self m ms')
  have span1 : (ds ++ (w :: ws') ++ (m :: ms') ++ h :: rest).span Char.isDigit =
      (ds, (w :: ws') ++ (m :: ms') ++ h :: rest) := by
    rw [List.span_eq_take_drop]
    have hshape : ds ++ (w :: ws') ++ (m :: ms') ++ h :: rest =
        ds ++ w :: (ws' ++ (m :: ms') ++ h :: rest) := by simp
    rw [hshape,
      takeWhile_append_cons ds w _ hds2 (pySpace_not_isDigit hw),
      dropWhile_append_cons ds w _ hds2 (pySpace_not_isDigit hw)]
    simp
  have span2 : ((w :: ws') ++ (m :: ms') ++ h :: rest).span pySpace =
      (w :: ws', (m :: ms') ++ h :: rest) := by
    rw [List.span_eq_take_drop]
    have hshape : (w :: ws') ++ (m :: ms') ++ h :: rest =
        (w :: ws') ++ m :: (ms' ++ h :: rest) := by simp
    rw [hshape,
      takeWhile_append_cons (w :: ws') m _ hws2 (isDigit_not_pySpace hm),
      dropWhile_append_cons (w :: ws') m _ hws2 (isDigit_not_pySpace hm)]
    simp
  have span3 : ((m :: ms') ++ h :: rest).span Char.isDigit =
      (m :: ms', h :: rest) := by
    rw [List.span_eq_take_drop,
      takeWhile_append_cons (m :: ms') h _ hms2 (hem_not_isDigit hh),
      dropWhile_append_cons (m :: ms') h _ hms2 (hem_not_isDigit hh)]
  rw [matchCoord]
  simp only [span1, span2, span3]
  rw [if_neg hds, if_neg (by simp), if_neg (by simp)]
  rcases hh with rfl | rfl | rfl | rfl <;> rfl

theorem pyStrip_prefix_aux (ds tail : List Char) (h : Char) (rest : List Char)
    (hds : ds ≠ []) (hds2 : ∀ c ∈ ds, c.isDigit = true)
    (hh : pySpace h = false) :
    pyStrip (ds ++ tail ++ h :: rest) =
      ds ++ tail ++ h :: (rest.reverse.dropWhile pySpace).reverse := by
  obtain ⟨d, ds', rfl⟩ := List.exists_cons_of_ne_nil hds
  have hd : pySpace d = false :=
    isDigit_not_pySpace (hds2 d (List.mem_cons_self d ds'))
  rw [pyStrip]
  have step1 : ((d :: ds') ++ tail ++ h :: rest).dropWhile pySpace =
      (d :: ds') ++ tail ++ h :: rest := by
    have hshape : (d :: ds') ++ tail ++ h :: rest =
        d :: (ds' ++ tail ++ h :: rest) := by simp
    rw [hshape, List.dropWhile_cons, hd]
    simp
  rw [step1]
  have step2 : ((d :: ds') ++ tail ++ h :: rest).reverse =
      rest.reverse ++ h :: (((d :: ds') ++ tail).reverse) := by
    simp
  rw [step2, dropWhile_append_cons_free _ h _ hh]
  simp

theorem parseFields_eq_none (l : List (List Char)) :
    parseFields l = none ↔ ∃ s ∈ l, pyFloat s = none := by
  induction l with
  | nil => simp [parseFields]
  | cons s rest ih =>
    cases hs : pyFloat s with
    | none =>
      simp only [parseFields, hs]
      exact iff_of_true trivial ⟨s, List.mem_cons_self s rest, hs⟩
    | some v =>
      cases hr : parseFields rest with
      | none =>
        simp only [parseFields, hs, hr]
        refine iff_of_true trivial ?_
        obtain ⟨t, ht, htn⟩ := ih.mp hr
        exact ⟨t, List.mem_cons_of_mem s ht, htn⟩
      | some vs =>
        simp only [parseFields, hs, hr]
        refine iff_of_false (by simp) ?_
        rintro ⟨t, ht, htn⟩
        rcases List.mem_cons.mp ht with rfl | ht'
        · rw [hs] at htn
          cases htn
        · have hnone : parseFields rest = none := ih.mpr ⟨t, ht', htn⟩
          rw [hr] at hnone
          cases hnone

theorem executorMap_error_aux (f : List Char → Except Unit (List Obs))
    (blocks : List (List Char)) (b : List Char) (hb : b ∈ blocks)
    (hf : f b = Except.error ()) : executorMap f blocks = Except.error () := by
  induction blocks with
  | nil => cases hb
  | cons x xs ih =>
    rcases List.mem_cons.mp hb with rfl | hb'
    · rw [executorMap, hf]
    · rw [executorMap]
      cases hx : f x with
      | error e =>
        cases e
        rfl
      | ok y =>
        rw [ih hb']

theorem filterMetar_not_bool (df : List Station) (v : PyVal)
    (h : ∀ b, v ≠ PyVal.bool b) :
    filterMetar df (some v) =
      Except.error (PyErr.valueError "metar parameter must be a boolean value (True/False)") := by
  cases v with
  | bool b => exact absurd rfl (h b)
  | int n => rfl
  | str s => rfl
  | list l => rfl

theorem filterNexrad_not_bool (df : List Station) (v : PyVal)
    (h : ∀ b, v ≠ PyVal.bool b) :
    filterNexrad df (some v) =
      Except.error (PyErr.valueError "nexrad parameter must be a boolean value (True/False)") := by
  cases v with
  | bool b => exact absurd rfl (h b)
  | int n => rfl
  | str s => rfl
  | list l => rfl

theorem filterRawinsonde_not_bool (df : List Station) (v : PyVal)
    (h : ∀ b, v ≠ PyVal.bool b) :
    filterRawinsonde df (some v) =
      Except.error (PyErr.valueError "rawinsonde parameter must be a boolean value (True/False)") := by
  cases v with
  | bool b => exact absurd rfl (h b)
  | int n => rfl
  | str s => rfl
  | list l => rfl

theorem filterStates_not_list (df : List Station) (v : PyVal)
    (h : ∀ l, v ≠ PyVal.list l) :
    filterStates df (some v) =
      Except.error (PyErr.valueError "states parameter must be a list of state abbreviations (e.g., ['PA', 'NY'])") := by
  cases v with
  | bool b => rfl
  | int n => rfl
  | str s => rfl
  | list l => exact absurd rfl (h l)

theorem filterOfficeType_bad_str (df : List Station) (s : List Char)
    (h1 : pyLower s ≠ "wfo".data) (h2 : pyLower s ≠ "rfc".data)
    (h3 : pyLower s ≠ "ncep".data) :
    filterOfficeType df (some (PyVal.str s)) =
      Except.error (PyErr.valueError "office_type parameter must be one of: 'wfo', 'rfc', 'ncep'") := by
  rw [filterOfficeType, if_neg h1, if_neg h2, if_neg h3]

theorem filterOfficeType_not_str (df : List Station) (v : PyVal)
    (h : ∀ s, v ≠ PyVal.str s) :
    filterOfficeType df (some v) = Except.error PyErr.attributeError := by
  cases v with
  | bool b => rfl
  | int n => rfl
  | str s => exact absurd rfl (h s)
  | list l => rfl

theorem convert_prefix_aux (ds ws ms : List Char) (h : Char) (rest : List Char)
    (hds : ds ≠ []) (hds2 : ∀ c ∈ ds, c.isDigit = true)
    (hws : ws ≠ []) (hws2 : ∀ c ∈ ws, pySpace c = true)
    (hms : ms ≠ []) (hms2 : ∀ c ∈ ms, c.isDigit = true)
    (hh : h = 'N' ∨ h = 'S' ∨ h = 'E' ∨ h = 'W') :
    convert_to_decimal (ds ++ ws ++ ms ++ h :: rest) =
      Except.ok (if h = 'S' ∨ h = 'W'
        then -((digitsToNat ds : ℚ) + (digitsToNat ms : ℚ) / 60)
        else (digitsToNat ds : ℚ) + (digitsToNat ms : ℚ) / 60) := by
  unfold convert_to_decimal
  have hstrip := pyStrip_prefix_aux ds (ws ++ ms) h rest hds hds2 (hem_not_pySpace hh)
  have hassoc : ds ++ ws ++ ms ++ h :: rest = ds ++ (ws ++ ms) ++ h :: rest := by
    simp
  have hassoc2 : ds ++ (ws ++ ms) ++ h :: (rest.reverse.dropWhile pySpace).reverse =
      ds ++ ws ++ ms ++ h :: (rest.reverse.dropWhile pySpace).reverse := by
    simp
  rw [hassoc, hstrip, hassoc2,
    matchCoord_prefix_aux ds ws ms h _ hds hds2 hws hws2 hms hms2 hh]

/-! # Claim theorems -/

/-- C10: `convert_to_decimal` performs no range or end-of-token check beyond
its prefix pattern: every input whose prefix is a digit run, whitespace, a
digit run and a hemisphere letter succeeds with `degrees + minutes/60`
(negated for S/W), whatever the digit values and whatever follows the
hemisphere letter. -/
theorem convert_to_decimal_prefix_semantics
    (ds ws ms : List Char) (h : Char) (rest : List Char)
    (hds : ds ≠ []) (hds2 : ∀ c ∈ ds, c.isDigit = true)
    (hws : ws ≠ []) (hws2 : ∀ c ∈ ws, pySpace c = true)
    (hms : ms ≠ []) (hms2 : ∀ c ∈ ms, c.isDigit = true)
    (hh : h = 'N' ∨ h = 'S' ∨ h = 'E' ∨ h = 'W') :
    convert_to_decimal (ds ++ ws ++ ms ++ h :: rest) =
      Except.ok (if h = 'S' ∨ h = 'W'
        then -((digitsToNat ds : ℚ) + (digitsToNat ms : ℚ) / 60)
        else (digitsToNat ds : ℚ) + (digitsToNat ms : ℚ) / 60) :=
  convert_prefix_aux ds ws ms h rest hds hds2 hws hws2 hms hms2 hh

/-- C10 witness: `"44 75N"` (minutes ≥ 60) decodes to 45.25, and trailing
garbage after the hemisphere letter (`"44 75Nxyz"`) decodes the same. -/
theorem convert_to_decimal_prefix_semantics_witness :
    convert_to_decimal (['4', '4'] ++ [' '] ++ ['7', '5'] ++ 'N' :: "xyz".data) =
      Except.ok (if 'N' = 'S' ∨ 'N' = 'W'
        then -((digitsToNat ['4', '4'] : ℚ) + (digitsToNat ['7', '5'] : ℚ) / 60)
        else (digitsToNat ['4', '4'] : ℚ) + (digitsToNat ['7', '5'] : ℚ) / 60) ∧
    convert_to_decimal "44 75Nxyz".data = Except.ok (181 / 4) ∧
    convert_to_decimal "44 75N".data = Except.ok (181 / 4) := by
  refine ⟨convert_to_decimal_prefix_semantics ['4', '4'] [' '] ['7', '5'] 'N'
    "xyz".data (by decide) (by decide) (by decide) (by decide) (by decide)
    (by decide) (by decide), ?_, ?_⟩
  · have h : matchCoord (pyStrip "44 75Nxyz".data) = some (44, 75, 'N') := by decide
    unfold convert_to_decimal
    rw [h]
    norm_num
    decide
  · have h : matchCoord (pyStrip "44 75N".data) = some (44, 75, 'N') := by decide
    unfold convert_to_decimal
    rw [h]
    norm_num
    decide

/-- C4: every valid token `"D M H"` (digit run, space, digit run, hemisphere
letter, with D ≤ 179 and M ≤ 59) decodes to a value of absolute value
`D + M/60` whose sign is negative iff H is S or W (for a nonzero magnitude;
the source returns IEEE `-0.0` for `"0 0S"`, which `ℚ` cannot distinguish
from `0`); a token the regex does not prefix-match raises the `ValueError`
(`"44 54"` misses the hemisphere, `"ab 54N"` has non-numeric degrees). -/
theorem convert_to_decimal_valid_tokens :
    (∀ (ds ms : List Char) (h : Char), ds ≠ [] → (∀ c ∈ ds, c.isDigit = true) →
      ms ≠ [] → (∀ c ∈ ms, c.isDigit = true) →
      (h = 'N' ∨ h = 'S' ∨ h = 'E' ∨ h = 'W') →
      digitsToNat ds ≤ 179 → digitsToNat ms ≤ 59 →
      ∃ v : ℚ, convert_to_decimal (ds ++ ' ' :: ms ++ [h]) = Except.ok v ∧
        |v| = (digitsToNat ds : ℚ) + (digitsToNat ms : ℚ) / 60 ∧
        (0 < digitsToNat ds + digitsToNat ms →
          (v < 0 ↔ (h = 'S' ∨ h = 'W')))) ∧
    (∀ cs : List Char, matchCoord (pyStrip cs) = none →
      convert_to_decimal cs = Except.error ()) ∧
    convert_to_decimal "44 54".data = Except.error () ∧
    convert_to_decimal "ab 54N".data = Except.error () := by
  refine ⟨?_, ?_, rfl, rfl⟩
  · intro ds ms h hds hds2 hms hms2 hh hD hM
    have hkey := convert_prefix_aux ds [' '] ms h [] hds hds2 (by decide)
      (by intro c hc; rw [List.mem_singleton] at hc; subst hc; rfl)
      hms hms2 hh
    have hshape : ds ++ ' ' :: ms ++ [h] = ds ++ [' '] ++ ms ++ h :: [] := by simp
    rw [hshape, hkey]
    have hnonneg : (0 : ℚ) ≤ (digitsToNat ds : ℚ) + (digitsToNat ms : ℚ) / 60 := by
      positivity
    refine ⟨_, rfl, ?_, ?_⟩
    · by_cases hsw : h = 'S' ∨ h = 'W'
      · rw [if_pos hsw, abs_neg, abs_of_nonneg hnonneg]
      · rw [if_neg hsw, abs_of_nonneg hnonneg]
    · intro hpos
      have hpos' : (0 : ℚ) < (digitsToNat ds : ℚ) + (digitsToNat ms : ℚ) / 60 := by
        by_cases hd0 : digitsToNat ds = 0
        · have hm0 : 0 < digitsToNat ms := by omega
          have h1 : (0 : ℚ) < (digitsToNat ms : ℚ) := by exact_mod_cast hm0
          have h2 : (0 : ℚ) ≤ (digitsToNat ds : ℚ) := by positivity
          linarith
        · have h1 : (0 : ℚ) < (digitsToNat ds : ℚ) := by
            exact_mod_cast Nat.pos_of_ne_zero hd0
          have h2 : (0 : ℚ) ≤ (digitsToNat ms : ℚ) / 60 := by positivity
          linarith
      by_cases hsw : h = 'S' ∨ h = 'W'
      · rw [if_pos hsw]
        constructor
        · intro _; exact hsw
        · intro _; linarith
      · rw [if_neg hsw]
        constructor
        · intro hlt; linarith
        · intro hc; exact absurd hc hsw
  · intro cs hmc
    unfold convert_to_decimal
    rw [hmc]

/-- C4 witness: the valid-token clause applied at the token `"44 54N"`. -/
theorem convert_to_decimal_valid_tokens_witness :
    ∃ v : ℚ, convert_to_decimal (['4', '4'] ++ ' ' :: ['5', '4'] ++ ['N']) =
        Except.ok v ∧
      |v| = (digitsToNat ['4', '4'] : ℚ) + (digitsToNat ['5', '4'] : ℚ) / 60 ∧
      (0 < digitsToNat ['4', '4'] + digitsToNat ['5', '4'] →
        (v < 0 ↔ ('N' = 'S' ∨ 'N' = 'W'))) :=
  convert_to_decimal_valid_tokens.1 ['4', '4'] ['5', '4'] 'N' (by decide)
    (by decide) (by decide) (by decide) (by decide) (by decide) (by decide)

/-- C7: the assembler's deduplication (`drop_duplicates()`) is an idempotent,
order-independent set collapse: duplicates of an observation collapse to a
single record regardless of input order, permuted inputs give the same
output set, and distinct near-duplicates are all retained. -/
theorem obs_dedup_set_collapse :
    (∀ l : List Obs, dropDuplicates (dropDuplicates l) = dropDuplicates l) ∧
    (∀ l l' : List Obs, l.Perm l' →
      ∀ o : Obs, o ∈ dropDuplicates l ↔ o ∈ dropDuplicates l') ∧
    (∀ (l : List Obs) (o : Obs), o ∈ l → (dropDuplicates l).count o = 1) ∧
    (∀ (l : List Obs) (o o' : Obs), o ∈ l → o' ∈ l → o ≠ o' →
      o ∈ dropDuplicates l ∧ o' ∈ dropDuplicates l) := by
  refine ⟨dropDuplicates_idem, ?_, ?_, ?_⟩
  · intro l l' hperm o
    rw [mem_dropDuplicates, mem_dropDuplicates]
    exact hperm.mem_iff
  · intro l o ho
    exact List.count_eq_one_of_mem (nodup_dropDuplicates l)
      ((mem_dropDuplicates l o).mpr ho)
  · intro l o o' ho ho' _
    exact ⟨(mem_dropDuplicates l o).mpr ho, (mem_dropDuplicates l o').mpr ho'⟩

/-- C7 witness: the same observation fed twice collapses to one record, in
either input order, and a distinct observation survives alongside it. -/
theorem obs_dedup_set_collapse_witness :
    (dropDuplicates [demoObsA, demoObsB, demoObsA]).count demoObsA = 1 ∧
    (∀ o : Obs, o ∈ dropDuplicates [demoObsA, demoObsB, demoObsA] ↔
      o ∈ dropDuplicates [demoObsA, demoObsA, demoObsB]) ∧
    demoObsB ∈ dropDuplicates [demoObsA, demoObsB, demoObsA] := by
  refine ⟨obs_dedup_set_collapse.2.2.1 _ _ (by simp),
    obs_dedup_set_collapse.2.1 _ _ ?_,
    (obs_dedup_set_collapse.2.2.2 _ demoObsA demoObsB (by simp) (by simp)
      (by decide)).2⟩
  exact List.Perm.cons demoObsA (List.Perm.swap demoObsA demoObsB [])

/-- C6: the region filter of `_process_metar_data` keeps exactly the
observations inside `[south, north] × [west, east]` with inclusive bounds:
a coordinate exactly on a boundary is kept, one any positive epsilon
outside is dropped. -/
theorem region_filter_inclusive (w e s n : ℚ) (df : List Obs) (o : Obs) :
    (o ∈ regionFilter [w, e, s, n] df ↔
      o ∈ df ∧ (s ≤ o.latitude ∧ o.latitude ≤ n) ∧
        (w ≤ o.longitude ∧ o.longitude ≤ e)) ∧
    (o ∈ df → o.latitude = s → o.latitude ≤ n → w ≤ o.longitude →
      o.longitude ≤ e → o ∈ regionFilter [w, e, s, n] df) ∧
    (∀ ε : ℚ, 0 < ε → o.latitude = s - ε → o ∉ regionFilter [w, e, s, n] df) := by
  have hmain : o ∈ regionFilter [w, e, s, n] df ↔
      o ∈ df ∧ (s ≤ o.latitude ∧ o.latitude ≤ n) ∧
        (w ≤ o.longitude ∧ o.longitude ≤ e) := by
    simp only [regionFilter, pdBetween, List.mem_filter, decide_eq_true_eq,
      List.getD, List.getElem?_cons_zero, List.getElem?_cons_succ,
      Option.getD_some]
    tauto
  refine ⟨hmain, ?_, ?_⟩
  · intro ho hlat hn hw he
    exact hmain.mpr ⟨ho, ⟨le_of_eq hlat.symm, hn⟩, hw, he⟩
  · intro ε hε hlat hmem
    have := (hmain.mp hmem).2.1.1
    rw [hlat] at this
    linarith

/-- C6 witness: an observation with latitude exactly on the south boundary
is kept; one 1/1000 below it is dropped. -/
theorem region_filter_inclusive_witness :
    demoObsB ∈ regionFilter [-76, -73, 39, 42] [demoObsB] ∧
    { demoObsB with latitude := 39 - 1/1000 } ∉
      regionFilter [-76, -73, 39, 42]
        [{ demoObsB with latitude := 39 - 1/1000 }] := by
  constructor
  · exact (region_filter_inclusive (-76) (-73) 39 42 [demoObsB] demoObsB).2.1
      (by simp) (by norm_num [demoObsB]) (by norm_num [demoObsB])
      (by norm_num [demoObsB]) (by norm_num [demoObsB])
  · exact (region_filter_inclusive (-76) (-73) 39 42 _ _).2.2 (1/1000)
      (by norm_num) (by norm_num [demoObsB])

/-- C1 counterexample: the source's `plot_observations` plan has reduction
fraction 0 for every region, while the claim's tier table demands fraction
0.20 at area 20,001 sq mi (and 1.00 with labels dropped above 1,500,000);
no tier table or area computation exists in the source. -/
theorem density_plan_counterexample :
    (plot_observations_plan [-76, -73, 38, 42]).reduce_points = 0 ∧
    specTierReduction 20001 = 20 / 100 ∧
    (plot_observations_plan [-76, -73, 38, 42]).reduce_points ≠
      specTierReduction 20001 ∧
    specTierReduction 2000000 = 1 ∧
    specTierDropLabels 2000000 = true ∧
    plot_observations_plan [-76, -73, 38, 42] = plot_observations_plan [0, 1, 0, 1] := by
  refine ⟨rfl, by norm_num [specTierReduction],
    by norm_num [specTierReduction, plot_observations_plan, plotObservationsConfig],
    by norm_num [specTierReduction], by norm_num [specTierDropLabels], rfl⟩

/-- C1 amended: `plot_observations` builds one fixed plan for every region:
reduction fraction 0.00 regardless of area (only the exactly-20,000 row of
the claimed tier table coincides with the code), the field list is fixed and
never contains a station-id entry, and no tier table exists. -/
theorem plot_observations_plan_constant (bounding_box : List ℚ) :
    plot_observations_plan bounding_box = plotObservationsConfig ∧
    (plot_observations_plan bounding_box).reduce_points = 0 ∧
    (plot_observations_plan bounding_box).reduce_points = specTierReduction 20000 ∧
    "station_id" ∉ (plot_observations_plan bounding_box).fields := by
  refine ⟨rfl, rfl, by norm_num [specTierReduction, plot_observations_plan,
    plotObservationsConfig], by simp [plot_observations_plan, plotObservationsConfig]⟩

/-- C3 counterexample: `_get_bounding_box` accepts a three-number reply
as-is, accepts a reply violating west < east and south < north, and returns
an invariant-violating cached tuple on a (case-insensitive) cache hit —
no count check, no ordering check, no re-validation ever happens. -/
theorem resolver_no_validation_counterexample :
    (getBoundingBox true "1,2,3".data [] "nj".data).result = Except.ok [1, 2, 3] ∧
    (getBoundingBox true "9,1,5,2".data [] "nj".data).result = Except.ok [9, 1, 5, 2] ∧
    (getBoundingBox true "x".data [("nj".data, [9, 1, 5, 2])] "NJ".data).result =
      Except.ok [9, 1, 5, 2] := by
  exact ⟨by decide, by decide, by decide⟩

/-- C3 amended: on a cache miss `_get_bounding_box` raises exactly when some
comma-separated field of the reply fails float parsing — the number of
fields and the west<east / south<north ordering are never validated — and a
cache hit returns the stored tuple unconditionally, with no re-validation. -/
theorem get_bounding_box_no_validation
    (flag : Bool) (reply : List Char) (cache : List (List Char × List ℚ))
    (loc : List Char) :
    (loadBoundingBox cache loc = none →
      ((getBoundingBox flag reply cache loc).result = Except.error () ↔
        ∃ s ∈ pySplitChar ',' reply, pyFloat s = none)) ∧
    (∀ bbox : List ℚ, loadBoundingBox cache loc = some bbox →
      (getBoundingBox flag reply cache loc).result = Except.ok bbox) := by
  constructor
  · intro hmiss
    simp only [getBoundingBox, hmiss]
    cases hp : parseFields (pySplitChar ',' reply) with
    | none =>
      simp only [parseBBoxReply, hp]
      exact iff_of_true trivial ((parseFields_eq_none _).mp hp)
    | some bl =>
      simp only [parseBBoxReply, hp]
      refine iff_of_false (by simp) (fun hex => ?_)
      have hnone := (parseFields_eq_none _).mpr hex
      rw [hp] at hnone
      cases hnone
  · intro bbox hhit
    simp only [getBoundingBox, hhit]

/-- C3 amended witness: a reply with an unparsable field raises; a reply of
four plain numbers is returned; a cached tuple is returned untouched. -/
theorem get_bounding_box_no_validation_witness :
    ((getBoundingBox false "a,b".data [] "nj".data).result = Except.error () ↔
      ∃ s ∈ pySplitChar ',' "a,b".data, pyFloat s = none) ∧
    (getBoundingBox false "x".data [("pa".data, [1, 2, 3, 4])] "pa".data).result =
      Except.ok [1, 2, 3, 4] :=
  ⟨(get_bounding_box_no_validation false "a,b".data [] "nj".data).1 (by decide),
   (get_bounding_box_no_validation false "x".data [("pa".data, [1, 2, 3, 4])]
      "pa".data).2 [1, 2, 3, 4] (by decide)⟩

/-- C5: a first resolution on a cache miss invokes the geocoding
collaborator and (with the persistence flag set, as the claim presupposes)
stores the parsed tuple under the case-folded identifier; a second
resolution of the same identifier in any letter case — against the
persisted store, so in the same or a later session — does not invoke the
collaborator and returns the identical tuple. -/
theorem get_bounding_box_caching
    (flag₂ : Bool) (reply reply₂ : List Char)
    (cache : List (List Char × List ℚ)) (loc loc₂ : List Char) (bbox : List ℚ)
    (hmiss : loadBoundingBox cache loc = none)
    (hfirst : (getBoundingBox true reply cache loc).result = Except.ok bbox)
    (hcase : pyLower loc₂ = pyLower loc) :
    (getBoundingBox true reply cache loc).invoked = true ∧
    (getBoundingBox flag₂ reply₂ (getBoundingBox true reply cache loc).cache
      loc₂).invoked = false ∧
    (getBoundingBox flag₂ reply₂ (getBoundingBox true reply cache loc).cache
      loc₂).result = Except.ok bbox := by
  have hparse : parseBBoxReply reply = Except.ok bbox := by
    revert hfirst
    simp only [getBoundingBox, hmiss]
    cases parseBBoxReply reply with
    | error e => intro hfirst; cases hfirst
    | ok b => intro hfirst; cases hfirst; rfl
  have hstep : getBoundingBox true reply cache loc =
      ⟨Except.ok bbox, (pyLower loc, bbox) :: cache, true⟩ := by
    simp only [getBoundingBox, hmiss, hparse, writeBoundingBoxCache, if_true]
  rw [hstep]
  have hload : loadBoundingBox ((pyLower loc, bbox) :: cache) loc₂ = some bbox := by
    simp [loadBoundingBox, List.lookup, hcase]
  refine ⟨rfl, ?_, ?_⟩ <;> simp only [getBoundingBox, hload]

/-- C5 witness: resolving `"NJ"` on an empty store invokes the collaborator
once; resolving `"nj"` against the store it produced does not, and returns
the identical tuple. -/
theorem get_bounding_box_caching_witness :
    (getBoundingBox true "1,2,3,4".data [] "NJ".data).invoked = true ∧
    (getBoundingBox true "".data
      ((getBoundingBox true "1,2,3,4".data [] "NJ".data).cache)
      "nj".data).invoked = false ∧
    (getBoundingBox true "".data
      ((getBoundingBox true "1,2,3,4".data [] "NJ".data).cache)
      "nj".data).result = Except.ok [1, 2, 3, 4] :=
  get_bounding_box_caching true "1,2,3,4".data "".data [] "NJ".data "nj".data
    [1, 2, 3, 4] (by decide) (by decide) (by decide)

/-- C2 counterexample: in the pooled pipeline (`MetarData.get_data` with
`_proces_data`, which has no per-block exception handling) a single
malformed block — here `"c"`, with fewer than two lines — aborts the whole
batch instead of contributing an empty result: the sibling block `"a\nb"`,
which alone yields one observation, is lost. -/
theorem parallel_parser_abort_counterexample :
    get_data 8 demoParse ["a\nb".data, "c".data] = Except.error () ∧
    get_data 8 demoParse ["a\nb".data] =
      Except.ok
        [{ station := "b"
           latitude := 0
           longitude := 0
           air_temperature := 0
           raw := "b"
           report_time := none }] := by
  exact ⟨by decide, by decide⟩

/-- C2 amended: per-block failure isolation holds in the sequential
`MetarReport._process_metar_data` (whose per-blob `try/except ... continue`
skips a failing blob): removing or inserting a failing blob leaves every
sibling's contribution and the assembled result unchanged.  The pooled
`MetarData` pipeline instead aborts the batch on a failing block (see the
counterexample). -/
theorem process_metar_data_isolates
    (parseDate : List Char → Except Unit Nat)
    (parseMetar : List Char → Except Unit (List Obs)) (bbox : List ℚ)
    (pre post : List (List Char)) (bad : List Char)
    (hbad : processBlob parseDate parseMetar bad = Except.error ()) :
    processBlobs parseDate parseMetar (pre ++ bad :: post) =
      processBlobs parseDate parseMetar (pre ++ post) ∧
    process_metar_data parseDate parseMetar bbox (pre ++ bad :: post) =
      process_metar_data parseDate parseMetar bbox (pre ++ post) := by
  have h1 : processBlobs parseDate parseMetar (pre ++ bad :: post) =
      processBlobs parseDate parseMetar (pre ++ post) := by
    simp only [processBlobs, List.foldl_append, List.foldl_cons, hbad]
  exact ⟨h1, by simp only [process_metar_data, h1]⟩

/-- C2 amended witness: a malformed blob between two good blobs contributes
nothing and leaves the siblings' assembled result unchanged. -/
theorem process_metar_data_isolates_witness :
    processBlobs demoParseDate demoParse
        (["2024/01/01 00:00\nM1".data] ++ "bad".data ::
          ["2024/01/01 00:00\nM2".data]) =
      processBlobs demoParseDate demoParse
        (["2024/01/01 00:00\nM1".data] ++ ["2024/01/01 00:00\nM2".data]) ∧
    process_metar_data demoParseDate demoParse [-80, 80, -80, 80]
        (["2024/01/01 00:00\nM1".data] ++ "bad".data ::
          ["2024/01/01 00:00\nM2".data]) =
      process_metar_data demoParseDate demoParse [-80, 80, -80, 80]
        (["2024/01/01 00:00\nM1".data] ++ ["2024/01/01 00:00\nM2".data]) :=
  process_metar_data_isolates demoParseDate demoParse [-80, 80, -80, 80]
    ["2024/01/01 00:00\nM1".data] ["2024/01/01 00:00\nM2".data] "bad".data
    (by decide)

/-- C8 counterexample: 50 blocks of which 2 are malformed do NOT yield 48
observations: the pooled pipeline aborts with an error under pool size 1
and under pool size 8 alike, because a malformed block's exception
re-raises when `executor.map` results are collected. -/
theorem pool_48_of_50_counterexample :
    blocks50.length = 50 ∧
    get_data 1 demoParse blocks50 = Except.error () ∧
    get_data 8 demoParse blocks50 = Except.error () := by
  exact ⟨by decide, by decide, by decide⟩

/-- C8 amended: the assembled result of `MetarData.get_data` is identical —
not merely set-equal — for every pool size, since `executor.map` collects
results in input order; but a block on which `_proces_data` raises aborts
the whole batch, so a 50-block batch with 2 malformed blocks yields an
error rather than 48 surviving observations. -/
theorem get_data_pool_independent :
    (∀ (w₁ w₂ : Nat) (parseMetar : List Char → Except Unit (List Obs))
      (blocks : List (List Char)),
      get_data w₁ parseMetar blocks = get_data w₂ parseMetar blocks) ∧
    (∀ (w : Nat) (parseMetar : List Char → Except Unit (List Obs))
      (blocks : List (List Char)) (b : List Char), b ∈ blocks →
      proces_data parseMetar b = Except.error () →
      get_data w parseMetar blocks = Except.error ()) := by
  constructor
  · intro w₁ w₂ p blocks
    rfl
  · intro w p blocks b hb hf
    rw [get_data, executorMap_error_aux (proces_data p) blocks b hb hf]

/-- C8 amended witness: pool sizes 1 and 8 agree on a good batch, and a
batch containing a one-line block aborts. -/
theorem get_data_pool_independent_witness :
    get_data 1 demoParse ["a\nb".data] = get_data 8 demoParse ["a\nb".data] ∧
    get_data 1 demoParse ["a\nb".data, "c".data] = Except.error () :=
  ⟨get_data_pool_independent.1 1 8 demoParse ["a\nb".data],
   get_data_pool_independent.2 1 demoParse ["a\nb".data, "c".data] "c".data
     (by simp) (by decide)⟩

/-- C9 counterexample: a non-string `office_type` value (here the int `0`)
is "a filter value of the wrong type ... not one of the three recognized
tokens", yet the call fails with the `AttributeError` raised by
`office_type.lower()`, not with a ValueError naming the parameter. -/
theorem station_filter_attribute_error_counterexample :
    station_data_us [] none none none (some (PyVal.int 0)) none =
      Except.error PyErr.attributeError ∧
    PyErr.attributeError ≠
      PyErr.valueError "office_type parameter must be one of: 'wfo', 'rfc', 'ncep'" := by
  exact ⟨rfl, by decide⟩

/-- C9 amended: `station_data_us` raises a ValueError naming the offending
parameter for a non-boolean `metar`/`nexrad`/`rawinsonde`, a non-list
`states`, and a string `office_type` outside the three recognized tokens
(case-insensitive); a non-string `office_type`, however, raises an
AttributeError that names no parameter.  In every case no filtered result
is returned. -/
theorem station_data_us_validation :
    (∀ (df : List Station) (v : PyVal) (n r o st : Option PyVal),
      (∀ b, v ≠ PyVal.bool b) →
      station_data_us df (some v) n r o st =
        Except.error (PyErr.valueError "metar parameter must be a boolean value (True/False)")) ∧
    (∀ (df : List Station) (m : Option PyVal) (v : PyVal) (r o st : Option PyVal),
      boolOk m → (∀ b, v ≠ PyVal.bool b) →
      station_data_us df m (some v) r o st =
        Except.error (PyErr.valueError "nexrad parameter must be a boolean value (True/False)")) ∧
    (∀ (df : List Station) (m n : Option PyVal) (v : PyVal) (o st : Option PyVal),
      boolOk m → boolOk n → (∀ b, v ≠ PyVal.bool b) →
      station_data_us df m n (some v) o st =
        Except.error (PyErr.valueError "rawinsonde parameter must be a boolean value (True/False)")) ∧
    (∀ (df : List Station) (m n r o : Option PyVal) (v : PyVal),
      boolOk m → boolOk n → boolOk r → (∀ l, v ≠ PyVal.list l) →
      station_data_us df m n r o (some v) =
        Except.error (PyErr.valueError "states parameter must be a list of state abbreviations (e.g., ['PA', 'NY'])")) ∧
    (∀ (df : List Station) (m n r st : Option PyVal) (s : List Char),
      boolOk m → boolOk n → boolOk r → listOk st →
      pyLower s ≠ "wfo".data → pyLower s ≠ "rfc".data → pyLower s ≠ "ncep".data →
      station_data_us df m n r (some (PyVal.str s)) st =
        Except.error (PyErr.valueError "office_type parameter must be one of: 'wfo', 'rfc', 'ncep'")) ∧
    (∀ (df : List Station) (m n r st : Option PyVal) (v : PyVal),
      boolOk m → boolOk n → boolOk r → listOk st → (∀ s, v ≠ PyVal.str s) →
      station_data_us df m n r (some v) st = Except.error PyErr.attributeError) := by
  refine ⟨?_, ?_, ?_, ?_, ?_, ?_⟩
  · intro df v n r o st hv
    simp only [station_data_us, filterMetar_not_bool df v hv]
  · rintro df m v r o st (rfl | ⟨b, rfl⟩) hv <;>
      simp only [station_data_us, filterMetar, filterNexrad_not_bool _ v hv]
  · rintro df m n v o st (rfl | ⟨b, rfl⟩) (rfl | ⟨b', rfl⟩) hv <;>
      simp only [station_data_us, filterMetar, filterNexrad,
        filterRawinsonde_not_bool _ v hv]
  · rintro df m n r o v (rfl | ⟨b, rfl⟩) (rfl | ⟨b', rfl⟩) (rfl | ⟨b'', rfl⟩) hv <;>
      simp only [station_data_us, filterMetar, filterNexrad, filterRawinsonde,
        filterStates_not_list _ v hv]
  · rintro df m n r st s (rfl | ⟨b, rfl⟩) (rfl | ⟨b', rfl⟩) (rfl | ⟨b'', rfl⟩)
      (rfl | ⟨l, rfl⟩) h1 h2 h3 <;>
      simp only [station_data_us, filterMetar, filterNexrad, filterRawinsonde,
        filterStates, filterOfficeType_bad_str _ s h1 h2 h3]
  · rintro df m n r st v (rfl | ⟨b, rfl⟩) (rfl | ⟨b', rfl⟩) (rfl | ⟨b'', rfl⟩)
      (rfl | ⟨l, rfl⟩) hv <;>
      simp only [station_data_us, filterMetar, filterNexrad, filterRawinsonde,
        filterStates, filterOfficeType_not_str _ v hv]

/-- C9 amended witness: an int fed to `metar` raises the metar ValueError;
an unrecognized office string raises the office_type ValueError; a list fed
to `office_type` raises AttributeError. -/
theorem station_data_us_validation_witness :
    station_data_us [] (some (PyVal.int 7)) none none none none =
      Except.error (PyErr.valueError "metar parameter must be a boolean value (True/False)") ∧
    station_data_us [] (some (PyVal.bool true)) none none
        (some (PyVal.str "xyz".data)) none =
      Except.error (PyErr.valueError "office_type parameter must be one of: 'wfo', 'rfc', 'ncep'") ∧
    station_data_us [] none none none (some (PyVal.list ["PA"])) none =
      Except.error PyErr.attributeError :=
  ⟨station_data_us_validation.1 [] (PyVal.int 7) none none none none
      (fun b => by simp),
   station_data_us_validation.2.2.2.2.1 [] (some (PyVal.bool true)) none none
      none "xyz".data (Or.inr ⟨true, rfl⟩) (Or.inl rfl) (Or.inl rfl)
      (Or.inl rfl) (by decide) (by decide) (by decide),
   station_data_us_validation.2.2.2.2.2 [] none none none none
      (PyVal.list ["PA"]) (Or.inl rfl) (Or.inl rfl) (Or.inl rfl) (Or.inl rfl)
      (fun s => by simp)⟩

end WeatherLab
